import Mathlib

/-!
# EC2 Transit Gateway Route Table data source

A shallow embedding of `aws/data_source_aws_ec2_transit_gateway_route_table.go`:
the read function `dataSourceAwsEc2TransitGatewayRouteTableRead`, the values it
reads from and writes to the resource data, and the request it sends to the
`DescribeTransitGatewayRouteTables` operation.

Conventions of the embedding:

* a Go pointer (`*bool`, `*string`, `*ec2.TransitGatewayRouteTable`) is an
  `Option`, `nil` being `none`;
* a Go `error` is its message, a `String`; `nil` is `none`;
* Go `int` is `Int` (the function only compares integers, it does no arithmetic);
* the function returns an `error`, or aborts with a run-time panic when a slice
  is indexed out of bounds: `Outcome` has one constructor for each;
* the resource data is passed explicitly: the function returns its outcome
  together with the resource data it leaves behind.
-/

namespace Aws

/-! ## Data model -/

/-- Message of a Go `error`. -/
abbrev GoError := String

/-- An `ec2.Tag`: both fields are pointers. -/
structure Tag where
  Key : Option String
  Value : Option String
deriving DecidableEq, Repr

/-- An `ec2.Filter` of a describe request. -/
structure Filter where
  Name : Option String
  Values : List (Option String)
deriving DecidableEq, Repr

/-- The fields of `ec2.TransitGatewayRouteTable` that the read function uses. -/
structure TransitGatewayRouteTable where
  DefaultAssociationRouteTable : Option Bool
  DefaultPropagationRouteTable : Option Bool
  Tags : List (Option Tag)
  TransitGatewayId : Option String
  TransitGatewayRouteTableId : Option String
deriving DecidableEq, Repr

/-- The fields of `ec2.DescribeTransitGatewayRouteTablesInput` that the read
function may set; `none` is a field left unset (a nil slice). -/
structure DescribeTransitGatewayRouteTablesInput where
  Filters : Option (List Filter)
  TransitGatewayRouteTableIds : Option (List (Option String))
deriving DecidableEq, Repr

/-- The field of `ec2.DescribeTransitGatewayRouteTablesOutput` that the read
function uses: a slice of pointers to route tables. -/
structure DescribeTransitGatewayRouteTablesOutput where
  TransitGatewayRouteTables : List (Option TransitGatewayRouteTable)
deriving DecidableEq, Repr

/-- One `filter` block of the configuration: a name and its values. -/
structure FilterBlock where
  name : String
  values : List String
deriving DecidableEq, Repr

/-- A value handed to `d.Set`: the function writes booleans, an integer, strings
and one string map. -/
inductive Value where
  | bool (b : Bool)
  | int (i : Int)
  | str (s : String)
  | map (m : List (String × String))
deriving DecidableEq, Repr

/-- The `schema.ResourceData` of one read. `index`, `filter` and `id` are the
configuration (`index` and `id` are optional, `filter` is a possibly empty set of
blocks); `attrs` holds the attributes written with `Set`, `Id` the value given to
`SetId`. -/
structure ResourceData where
  index : Option Int
  filter : List FilterBlock
  id : Option String
  attrs : List (String × Value)
  Id : Option String
deriving DecidableEq, Repr

/-- The field writer behind `d.Set`: for a key and a value, the error the write
is refused with, if any. It belongs to the plugin SDK, so the read function
takes it as a parameter; `schemaWriter` below is the one of this data source. -/
structure FieldWriter where
  WriteField : String → Value → Option GoError

/-- Modelled from the spec: the tag-ignore configuration of package
`keyvaluetags`, declared in another file of the provider: the tag keys that the
user configured as ignored. The read function only passes it on. -/
structure IgnoreConfig where
  Keys : List String
deriving DecidableEq, Repr

/-- Helpers of the provider that the read function calls and whose bodies are in
other files: the filter builder and the steps of the tag pipeline
`Ec2KeyValueTags(..).IgnoreAws().IgnoreConfig(..).Map()`. They are parameters of
the embedding. -/
structure Helpers where
  buildAwsDataSourceFilters : List FilterBlock → List Filter
  Ec2KeyValueTags : List (Option Tag) → List (String × Option String)
  IgnoreAws : List (String × Option String) → List (String × Option String)
  IgnoreConfig : List (String × Option String) → IgnoreConfig → List (String × Option String)
  Map : List (String × Option String) → List (String × String)

/-- The `*AWSClient` behind `meta`: the EC2 connection, reduced to the one
operation called, and the tag-ignore configuration. The operation returns an
output pointer and an error, either of which may be nil. -/
structure AWSClient where
  DescribeTransitGatewayRouteTables :
    DescribeTransitGatewayRouteTablesInput →
      Option DescribeTransitGatewayRouteTablesOutput × Option GoError
  IgnoreTagsConfig : IgnoreConfig

/-- How a call of the read function ends: it returns nil, it returns an error, or
it aborts with a run-time panic (slice index out of range). -/
inductive Outcome where
  | ok
  | error (msg : GoError)
  | panic
deriving DecidableEq, Repr

/-! ## SDK primitives -/

/-- The `aws.BoolValue` dereference: `false` for a nil pointer. -/
def BoolValue (p : Option Bool) : Bool :=
  match p with
  | some b => b
  | none => false

/-- The `aws.StringValue` dereference: the empty string for a nil pointer. -/
def StringValue (p : Option String) : String :=
  match p with
  | some s => s
  | none => ""

/-- The read `d.Get("index").(int)`: the configured value, or the schema default 0. -/
def ResourceData.GetIndex (d : ResourceData) : Int :=
  match d.index with
  | some i => i
  | none => 0

/-- The read `d.GetOk("filter")`: present when the set of blocks is not empty. -/
def ResourceData.GetOkFilter (d : ResourceData) : Option (List FilterBlock) :=
  if d.filter.isEmpty then none else some d.filter

/-- The read `d.GetOk("id")`: present when the string is set and not empty. -/
def ResourceData.GetOkId (d : ResourceData) : Option String :=
  match d.id with
  | some s => if s = "" then none else some s
  | none => none

/-- The write `d.Set(key, value)`: when the field writer accepts it, the attribute
takes the value; when it refuses, the error is returned and the data is left
as it was. -/
def ResourceData.Set (w : FieldWriter) (d : ResourceData) (key : String) (value : Value) :
    ResourceData × Option GoError :=
  match w.WriteField key value with
  | some e => (d, some e)
  | none => ({ d with attrs := (key, value) :: d.attrs.filter (fun p => p.1 != key) }, none)

/-- The write `d.SetId(v)`. -/
def ResourceData.SetId (d : ResourceData) (v : String) : ResourceData :=
  { d with Id := some v }

/-- The attribute last written under `key`, if any. -/
def ResourceData.attr (d : ResourceData) (key : String) : Option Value :=
  d.attrs.lookup key

/-- The `schema.ValueType` of an attribute, for the types this data source
declares. -/
inductive ValueType where
  | TypeBool
  | TypeInt
  | TypeString
  | TypeMap
  | TypeSet
deriving DecidableEq, Repr

/-- Modelled from the spec: `tagsSchemaComputed()`, declared in another file of
the provider, is the schema of the computed `tags` attribute, a mapping from
string to string. -/
def tagsSchemaComputed : ValueType := ValueType.TypeMap

/-- Modelled from the spec: `dataSourceFiltersSchema()`, declared in another
file of the provider, is the schema of the repeated `filter` blocks, a set. -/
def dataSourceFiltersSchema : ValueType := ValueType.TypeSet

/-- The schema map of `dataSourceAwsEc2TransitGatewayRouteTable()` (lines 18 to
46): every attribute with its declared type. -/
def dataSourceAwsEc2TransitGatewayRouteTable : List (String × ValueType) :=
  [("index", ValueType.TypeInt),
   ("index_last", ValueType.TypeInt),
   ("default_association_route_table", ValueType.TypeBool),
   ("default_propagation_route_table", ValueType.TypeBool),
   ("filter", dataSourceFiltersSchema),
   ("id", ValueType.TypeString),
   ("transit_gateway_id", ValueType.TypeString),
   ("tags", tagsSchemaComputed)]

/-- Whether a value handed to `d.Set` is of the given schema type. -/
def Value.hasType (v : Value) (t : ValueType) : Bool :=
  match v, t with
  | Value.bool _, ValueType.TypeBool => true
  | Value.int _, ValueType.TypeInt => true
  | Value.str _, ValueType.TypeString => true
  | Value.map _, ValueType.TypeMap => true
  | _, _ => false

/-- The field writer of the plugin SDK for the schema of this data source: a
write is accepted when the key is declared and the value is of the declared
type, and refused otherwise. The texts of the refusals stand for the SDK's. -/
def schemaWriter : FieldWriter where
  WriteField := fun key value =>
    match dataSourceAwsEc2TransitGatewayRouteTable.lookup key with
    | none => some ("Invalid address to set: " ++ key)
    | some t => if value.hasType t then none else some (key ++ ": value of another type")

/-- Go slice indexing `s[i]` with an `int` index: `none` is the run-time panic
for an index below zero or not below the length. -/
def sliceIndex {α : Type} (s : List α) (i : Int) : Option α :=
  if 0 ≤ i ∧ i < (s.length : Int) then s.get? i.toNat else none

/-! ## The read function -/

/-- The request built at lines 54 to 64: filters when `filter` is given, the
identifier list when `id` is given. -/
def describeInput (h : Helpers) (d : ResourceData) : DescribeTransitGatewayRouteTablesInput :=
  let input : DescribeTransitGatewayRouteTablesInput :=
    { Filters := none, TransitGatewayRouteTableIds := none }
  let input :=
    match d.GetOkFilter with
    | some v => { input with Filters := some (h.buildAwsDataSourceFilters v) }
    | none => input
  let input :=
    match d.GetOkId with
    | some v => { input with TransitGatewayRouteTableIds := some [some v] }
    | none => input
  input

/-- The function `dataSourceAwsEc2TransitGatewayRouteTableRead`. -/
def dataSourceAwsEc2TransitGatewayRouteTableRead (h : Helpers) (w : FieldWriter)
    (d : ResourceData) (client : AWSClient) : Outcome × ResourceData :=
  let ignoreTagsConfig := client.IgnoreTagsConfig
  let input := describeInput h d
  let index := d.GetIndex
  match client.DescribeTransitGatewayRouteTables input with
  | (_, some err) =>
    (Outcome.error ("error reading EC2 Transit Gateway Route Table: " ++ err), d)
  | (none, none) =>
    (Outcome.error "error reading EC2 Transit Gateway Route Table: no results found", d)
  | (some output, none) =>
    if output.TransitGatewayRouteTables.length = 0 then
      (Outcome.error "error reading EC2 Transit Gateway Route Table: no results found", d)
    else if index > (output.TransitGatewayRouteTables.length : Int) then
      (Outcome.error "Index out of range", d)
    else
      match sliceIndex output.TransitGatewayRouteTables index with
      | none => (Outcome.panic, d)
      | some none =>
        (Outcome.error "error reading EC2 Transit Gateway Route Table: empty result", d)
      | some (some transitGatewayRouteTable) =>
        let d := (d.Set w "default_association_route_table"
          (Value.bool (BoolValue transitGatewayRouteTable.DefaultAssociationRouteTable))).1
        let d := (d.Set w "default_propagation_route_table"
          (Value.bool (BoolValue transitGatewayRouteTable.DefaultPropagationRouteTable))).1
        let d := (d.Set w "index_last"
          (Value.int (output.TransitGatewayRouteTables.length : Int))).1
        match d.Set w "tags" (Value.map (h.Map (h.IgnoreConfig
            (h.IgnoreAws (h.Ec2KeyValueTags transitGatewayRouteTable.Tags)) ignoreTagsConfig))) with
        | (d, some err) => (Outcome.error ("error setting tags: " ++ err), d)
        | (d, none) =>
          let d := (d.Set w "transit_gateway_id"
            (Value.str (StringValue transitGatewayRouteTable.TransitGatewayId))).1
          let d := d.SetId (StringValue transitGatewayRouteTable.TransitGatewayRouteTableId)
          (Outcome.ok, d)

/-! ## Names for parts of the read function, used to state its paths -/

/-- The state after the writes of a selected route table up to `index_last`
(lines 87 to 89). -/
def afterScalars (w : FieldWriter) (d : ResourceData) (n : Nat) (rt : TransitGatewayRouteTable) :
    ResourceData :=
  ((((d.Set w "default_association_route_table"
    (Value.bool (BoolValue rt.DefaultAssociationRouteTable))).1).Set w
      "default_propagation_route_table"
      (Value.bool (BoolValue rt.DefaultPropagationRouteTable))).1.Set w "index_last"
        (Value.int (n : Int))).1

/-- The value written under `tags` for a selected route table (line 91). -/
def tagsValue (h : Helpers) (client : AWSClient) (rt : TransitGatewayRouteTable) : Value :=
  Value.map (h.Map (h.IgnoreConfig (h.IgnoreAws (h.Ec2KeyValueTags rt.Tags))
    client.IgnoreTagsConfig))

/-! ## Concrete data used to evaluate the function -/

/-- One choice of helpers to evaluate the function with: a filter block becomes
a filter of the same name and values; tags with a nil key or value are dropped,
keys starting with `aws:` count as reserved, the configured keys are ignored. -/
def sampleHelpers : Helpers where
  buildAwsDataSourceFilters := fun bs =>
    bs.map (fun b => { Name := some b.name, Values := b.values.map some })
  Ec2KeyValueTags := fun ts =>
    ts.filterMap (fun t => t.bind (fun t => t.Key.map (fun k => (k, t.Value))))
  IgnoreAws := fun m => m.filter (fun p => !("aws:".isPrefixOf p.1))
  IgnoreConfig := fun m c => m.filter (fun p => !(c.Keys.contains p.1))
  Map := fun m => m.filterMap (fun p => p.2.map (fun v => (p.1, v)))

/-- A field writer that accepts every write. -/
def acceptAll : FieldWriter where
  WriteField := fun _ _ => none

/-- Two route tables, the second being the one of the scenario of the
documentation. -/
def sampleTable1 : TransitGatewayRouteTable where
  DefaultAssociationRouteTable := none
  DefaultPropagationRouteTable := some false
  Tags := []
  TransitGatewayId := some "tgw-123"
  TransitGatewayRouteTableId := some "tgw-rtb-1"

/-- The second route table of the sample response. -/
def sampleTable2 : TransitGatewayRouteTable where
  DefaultAssociationRouteTable := some true
  DefaultPropagationRouteTable := none
  Tags := [some { Key := some "Name", Value := some "main" },
           some { Key := some "aws:cloudformation:stack-name", Value := some "s" }]
  TransitGatewayId := some "tgw-123"
  TransitGatewayRouteTableId := some "tgw-rtb-2"

/-- A client whose describe call answers every request with the given pair. -/
def constClient (r : Option DescribeTransitGatewayRouteTablesOutput × Option GoError) :
    AWSClient where
  DescribeTransitGatewayRouteTables := fun _ => r
  IgnoreTagsConfig := { Keys := [] }

/-- A client answering with the two sample route tables. -/
def sampleClient : AWSClient :=
  constClient (some { TransitGatewayRouteTables := [some sampleTable1, some sampleTable2] }, none)

/-- Resource data of a fresh read with the given index, one filter block and
no `id`. -/
def sampleData (index : Option Int) : ResourceData where
  index := index
  filter := [{ name := "transit-gateway-id", values := ["tgw-123"] }]
  id := none
  attrs := []
  Id := none

/-! ## Lemmas on the primitives -/

theorem Set_accepted (w : FieldWriter) (d : ResourceData) (key : String) (value : Value)
    (hw : w.WriteField key value = none) :
    d.Set w key value =
      ({ d with attrs := (key, value) :: d.attrs.filter (fun p => p.1 != key) }, none) := by
  simp [ResourceData.Set, hw]

theorem Set_refused (w : FieldWriter) (d : ResourceData) (key : String) (value : Value)
    (e : GoError) (hw : w.WriteField key value = some e) :
    d.Set w key value = (d, some e) := by
  simp [ResourceData.Set, hw]

theorem sliceIndex_eq_get? {α : Type} (s : List α) (i : Int) (h0 : 0 ≤ i)
    (h1 : i < (s.length : Int)) : sliceIndex s i = s.get? i.toNat := by
  simp [sliceIndex, h0, h1]

theorem sliceIndex_neg {α : Type} (s : List α) (i : Int) (h0 : i < 0) :
    sliceIndex s i = none := by
  have : ¬ (0 ≤ i) := by omega
  simp [sliceIndex, this]

theorem sliceIndex_ge {α : Type} (s : List α) (i : Int) (h1 : (s.length : Int) ≤ i) :
    sliceIndex s i = none := by
  have : ¬ (i < (s.length : Int)) := by omega
  simp [sliceIndex, this]

theorem sliceIndex_isSome {α : Type} (s : List α) (i : Int) :
    (sliceIndex s i).isSome = true ↔ 0 ≤ i ∧ i < (s.length : Int) := by
  constructor
  · intro h
    by_contra hc
    simp [sliceIndex, hc] at h
  · intro h
    rw [sliceIndex_eq_get? s i h.1 h.2]
    have hlt : i.toNat < s.length := by omega
    simp [List.getElem?_eq_getElem hlt]

theorem lookup_filter_ne (l : List (String × Value)) (k k' : String) (hk : k' ≠ k) :
    (l.filter (fun p => p.1 != k)).lookup k' = l.lookup k' := by
  induction l with
  | nil => rfl
  | cons p l ih =>
    obtain ⟨a, b⟩ := p
    by_cases ha : a = k
    · subst ha
      have hne : (k' == a) = false := by simpa using hk
      simp [List.filter_cons, List.lookup_cons, hne, ih]
    · have hka : (a != k) = true := by simpa using ha
      simp only [List.filter_cons, hka, if_true, List.lookup_cons, ih]

theorem attr_Set_same (w : FieldWriter) (d : ResourceData) (key : String) (value : Value)
    (hw : w.WriteField key value = none) : (d.Set w key value).1.attr key = some value := by
  simp [Set_accepted w d key value hw, ResourceData.attr, List.lookup_cons]

theorem attr_Set_other (w : FieldWriter) (d : ResourceData) (key key' : String) (value : Value)
    (hk : key' ≠ key) : (d.Set w key value).1.attr key' = d.attr key' := by
  cases hw : w.WriteField key value with
  | some e => rw [Set_refused w d key value e hw]
  | none =>
    have hne : (key' == key) = false := by simpa using hk
    rw [Set_accepted w d key value hw]
    simp only [ResourceData.attr, List.lookup_cons, hne]
    exact lookup_filter_ne d.attrs key key' hk

theorem Id_Set (w : FieldWriter) (d : ResourceData) (key : String) (value : Value) :
    (d.Set w key value).1.Id = d.Id := by
  cases hw : w.WriteField key value with
  | some e => rw [Set_refused w d key value e hw]
  | none => rw [Set_accepted w d key value hw]

theorem attr_SetId (d : ResourceData) (v : String) (key : String) :
    (d.SetId v).attr key = d.attr key := rfl

/-! ## The paths through the read function -/

/-- The part of the read function after the element access, for a selected
route table that is not nil (lines 87 to 99). -/
theorem read_selected (h : Helpers) (w : FieldWriter) (d : ResourceData) (client : AWSClient)
    (output : DescribeTransitGatewayRouteTablesOutput) (rt : TransitGatewayRouteTable)
    (hcall : client.DescribeTransitGatewayRouteTables (describeInput h d) = (some output, none))
    (hsel : sliceIndex output.TransitGatewayRouteTables d.GetIndex = some (some rt)) :
    dataSourceAwsEc2TransitGatewayRouteTableRead h w d client =
      (let d1 := (d.Set w "default_association_route_table"
          (Value.bool (BoolValue rt.DefaultAssociationRouteTable))).1
       let d2 := (d1.Set w "default_propagation_route_table"
          (Value.bool (BoolValue rt.DefaultPropagationRouteTable))).1
       let d3 := (d2.Set w "index_last"
          (Value.int (output.TransitGatewayRouteTables.length : Int))).1
       match d3.Set w "tags" (Value.map (h.Map (h.IgnoreConfig
            (h.IgnoreAws (h.Ec2KeyValueTags rt.Tags)) client.IgnoreTagsConfig))) with
       | (d4, some err) => (Outcome.error ("error setting tags: " ++ err), d4)
       | (d4, none) =>
         (Outcome.ok, ((d4.Set w "transit_gateway_id"
            (Value.str (StringValue rt.TransitGatewayId))).1).SetId
              (StringValue rt.TransitGatewayRouteTableId))) := by
  have hb := (sliceIndex_isSome output.TransitGatewayRouteTables d.GetIndex).1 (by simp [hsel])
  have h0 : ¬ (output.TransitGatewayRouteTables.length = 0) := by omega
  have h1 : ¬ (d.GetIndex > (output.TransitGatewayRouteTables.length : Int)) := by omega
  unfold dataSourceAwsEc2TransitGatewayRouteTableRead
  simp only [hcall, h0, h1, if_false, hsel]

/-- The read function when the selected slot holds a nil pointer. -/
theorem read_selected_nil (h : Helpers) (w : FieldWriter) (d : ResourceData) (client : AWSClient)
    (output : DescribeTransitGatewayRouteTablesOutput)
    (hcall : client.DescribeTransitGatewayRouteTables (describeInput h d) = (some output, none))
    (hsel : sliceIndex output.TransitGatewayRouteTables d.GetIndex = some none) :
    dataSourceAwsEc2TransitGatewayRouteTableRead h w d client =
      (Outcome.error "error reading EC2 Transit Gateway Route Table: empty result", d) := by
  have hb := (sliceIndex_isSome output.TransitGatewayRouteTables d.GetIndex).1 (by simp [hsel])
  have h0 : ¬ (output.TransitGatewayRouteTables.length = 0) := by omega
  have h1 : ¬ (d.GetIndex > (output.TransitGatewayRouteTables.length : Int)) := by omega
  unfold dataSourceAwsEc2TransitGatewayRouteTableRead
  simp only [hcall, h0, h1, if_false, hsel]

/-- The read function when the index passes the range check and the element
access is out of bounds. -/
theorem read_out_of_bounds (h : Helpers) (w : FieldWriter) (d : ResourceData) (client : AWSClient)
    (output : DescribeTransitGatewayRouteTablesOutput)
    (hcall : client.DescribeTransitGatewayRouteTables (describeInput h d) = (some output, none))
    (h0 : output.TransitGatewayRouteTables.length ≠ 0)
    (h1 : d.GetIndex ≤ (output.TransitGatewayRouteTables.length : Int))
    (hsel : sliceIndex output.TransitGatewayRouteTables d.GetIndex = none) :
    dataSourceAwsEc2TransitGatewayRouteTableRead h w d client = (Outcome.panic, d) := by
  have h1' : ¬ (d.GetIndex > (output.TransitGatewayRouteTables.length : Int)) := by omega
  unfold dataSourceAwsEc2TransitGatewayRouteTableRead
  simp only [hcall, h0, h1', if_false, hsel]

/-- The read function when the call succeeds with a nil output or no record. -/
theorem read_no_results (h : Helpers) (w : FieldWriter) (d : ResourceData) (client : AWSClient)
    (out : Option DescribeTransitGatewayRouteTablesOutput)
    (hcall : client.DescribeTransitGatewayRouteTables (describeInput h d) = (out, none))
    (hempty : ∀ output, out = some output → output.TransitGatewayRouteTables.length = 0) :
    dataSourceAwsEc2TransitGatewayRouteTableRead h w d client =
      (Outcome.error "error reading EC2 Transit Gateway Route Table: no results found", d) := by
  unfold dataSourceAwsEc2TransitGatewayRouteTableRead
  cases out with
  | none => simp only [hcall]
  | some output =>
    have h0 := hempty output rfl
    simp only [hcall, h0, if_true]

/-- The read function when the index is above the number of records. -/
theorem read_range_error (h : Helpers) (w : FieldWriter) (d : ResourceData) (client : AWSClient)
    (output : DescribeTransitGatewayRouteTablesOutput)
    (hcall : client.DescribeTransitGatewayRouteTables (describeInput h d) = (some output, none))
    (h0 : output.TransitGatewayRouteTables.length ≠ 0)
    (h1 : d.GetIndex > (output.TransitGatewayRouteTables.length : Int)) :
    dataSourceAwsEc2TransitGatewayRouteTableRead h w d client =
      (Outcome.error "Index out of range", d) := by
  unfold dataSourceAwsEc2TransitGatewayRouteTableRead
  simp only [hcall, h0, h1, if_false, if_true]

/-- The read function when the describe call returns an error. -/
theorem read_call_error (h : Helpers) (w : FieldWriter) (d : ResourceData) (client : AWSClient)
    (e : GoError)
    (herr : (client.DescribeTransitGatewayRouteTables (describeInput h d)).2 = some e) :
    dataSourceAwsEc2TransitGatewayRouteTableRead h w d client =
      (Outcome.error ("error reading EC2 Transit Gateway Route Table: " ++ e), d) := by
  unfold dataSourceAwsEc2TransitGatewayRouteTableRead
  cases hc : client.DescribeTransitGatewayRouteTables (describeInput h d) with
  | mk out err =>
    rw [hc] at herr
    simp only at herr
    subst herr
    simp only [hc]

/-- The selected route table when the write of `tags` is refused. -/
theorem read_tags_refused (h : Helpers) (w : FieldWriter) (d : ResourceData) (client : AWSClient)
    (output : DescribeTransitGatewayRouteTablesOutput) (rt : TransitGatewayRouteTable)
    (e : GoError)
    (hcall : client.DescribeTransitGatewayRouteTables (describeInput h d) = (some output, none))
    (hsel : sliceIndex output.TransitGatewayRouteTables d.GetIndex = some (some rt))
    (hw : w.WriteField "tags" (tagsValue h client rt) = some e) :
    dataSourceAwsEc2TransitGatewayRouteTableRead h w d client =
      (Outcome.error ("error setting tags: " ++ e),
        afterScalars w d output.TransitGatewayRouteTables.length rt) := by
  rw [read_selected h w d client output rt hcall hsel]
  simp only [tagsValue] at hw
  simp only [Set_refused _ _ _ _ e hw, afterScalars]

/-- The selected route table when the write of `tags` is accepted. -/
theorem read_tags_accepted (h : Helpers) (w : FieldWriter) (d : ResourceData)
    (client : AWSClient) (output : DescribeTransitGatewayRouteTablesOutput)
    (rt : TransitGatewayRouteTable)
    (hcall : client.DescribeTransitGatewayRouteTables (describeInput h d) = (some output, none))
    (hsel : sliceIndex output.TransitGatewayRouteTables d.GetIndex = some (some rt))
    (hw : w.WriteField "tags" (tagsValue h client rt) = none) :
    dataSourceAwsEc2TransitGatewayRouteTableRead h w d client =
      (Outcome.ok,
        ((((afterScalars w d output.TransitGatewayRouteTables.length rt).Set w "tags"
          (tagsValue h client rt)).1.Set w "transit_gateway_id"
            (Value.str (StringValue rt.TransitGatewayId))).1).SetId
              (StringValue rt.TransitGatewayRouteTableId)) := by
  rw [read_selected h w d client output rt hcall hsel]
  simp only [tagsValue] at hw
  simp only [Set_accepted _ _ _ _ hw, afterScalars, tagsValue]

/-- Every call of the read function takes one of seven paths. -/
theorem read_cases (h : Helpers) (w : FieldWriter) (d : ResourceData) (client : AWSClient) :
    (∃ e, (client.DescribeTransitGatewayRouteTables (describeInput h d)).2 = some e ∧
      dataSourceAwsEc2TransitGatewayRouteTableRead h w d client =
        (Outcome.error ("error reading EC2 Transit Gateway Route Table: " ++ e), d)) ∨
    (∃ out, client.DescribeTransitGatewayRouteTables (describeInput h d) = (out, none) ∧
      (∀ output, out = some output → output.TransitGatewayRouteTables.length = 0) ∧
      dataSourceAwsEc2TransitGatewayRouteTableRead h w d client =
        (Outcome.error "error reading EC2 Transit Gateway Route Table: no results found", d)) ∨
    (∃ output,
      client.DescribeTransitGatewayRouteTables (describeInput h d) = (some output, none) ∧
      output.TransitGatewayRouteTables.length ≠ 0 ∧
      d.GetIndex > (output.TransitGatewayRouteTables.length : Int) ∧
      dataSourceAwsEc2TransitGatewayRouteTableRead h w d client =
        (Outcome.error "Index out of range", d)) ∨
    (∃ output,
      client.DescribeTransitGatewayRouteTables (describeInput h d) = (some output, none) ∧
      output.TransitGatewayRouteTables.length ≠ 0 ∧
      (d.GetIndex < 0 ∨ d.GetIndex = (output.TransitGatewayRouteTables.length : Int)) ∧
      dataSourceAwsEc2TransitGatewayRouteTableRead h w d client = (Outcome.panic, d)) ∨
    (∃ output,
      client.DescribeTransitGatewayRouteTables (describeInput h d) = (some output, none) ∧
      sliceIndex output.TransitGatewayRouteTables d.GetIndex = some none ∧
      dataSourceAwsEc2TransitGatewayRouteTableRead h w d client =
        (Outcome.error "error reading EC2 Transit Gateway Route Table: empty result", d)) ∨
    (∃ output rt e,
      client.DescribeTransitGatewayRouteTables (describeInput h d) = (some output, none) ∧
      sliceIndex output.TransitGatewayRouteTables d.GetIndex = some (some rt) ∧
      w.WriteField "tags" (tagsValue h client rt) = some e ∧
      dataSourceAwsEc2TransitGatewayRouteTableRead h w d client =
        (Outcome.error ("error setting tags: " ++ e),
          afterScalars w d output.TransitGatewayRouteTables.length rt)) ∨
    (∃ output rt,
      client.DescribeTransitGatewayRouteTables (describeInput h d) = (some output, none) ∧
      sliceIndex output.TransitGatewayRouteTables d.GetIndex = some (some rt) ∧
      w.WriteField "tags" (tagsValue h client rt) = none ∧
      dataSourceAwsEc2TransitGatewayRouteTableRead h w d client =
        (Outcome.ok,
          ((((afterScalars w d output.TransitGatewayRouteTables.length rt).Set w "tags"
            (tagsValue h client rt)).1.Set w "transit_gateway_id"
              (Value.str (StringValue rt.TransitGatewayId))).1).SetId
                (StringValue rt.TransitGatewayRouteTableId))) := by
  cases hc : client.DescribeTransitGatewayRouteTables (describeInput h d) with
  | mk out err =>
    cases err with
    | some e =>
      exact Or.inl ⟨e, rfl, read_call_error h w d client e (by rw [hc])⟩
    | none =>
      cases out with
      | none =>
        refine Or.inr (Or.inl ⟨none, rfl, ?_, read_no_results h w d client none hc ?_⟩) <;>
          intro output ho <;> cases ho
      | some output =>
        by_cases h0 : output.TransitGatewayRouteTables.length = 0
        · refine Or.inr (Or.inl ⟨some output, rfl, ?_,
            read_no_results h w d client (some output) hc ?_⟩) <;>
            intro o ho <;> cases ho <;> exact h0
        · by_cases h1 : d.GetIndex > (output.TransitGatewayRouteTables.length : Int)
          · exact Or.inr (Or.inr (Or.inl ⟨output, rfl, h0, h1,
              read_range_error h w d client output hc h0 h1⟩))
          · cases hsel : sliceIndex output.TransitGatewayRouteTables d.GetIndex with
            | none =>
              have hb := sliceIndex_isSome output.TransitGatewayRouteTables d.GetIndex
              rw [hsel] at hb
              have hnb : ¬ (0 ≤ d.GetIndex ∧
                  d.GetIndex < (output.TransitGatewayRouteTables.length : Int)) := by
                intro hh
                have := hb.2 hh
                simp at this
              refine Or.inr (Or.inr (Or.inr (Or.inl ⟨output, rfl, h0, by omega,
                read_out_of_bounds h w d client output hc h0 (by omega) hsel⟩)))
            | some r =>
              cases r with
              | none =>
                exact Or.inr (Or.inr (Or.inr (Or.inr (Or.inl ⟨output, rfl, hsel,
                  read_selected_nil h w d client output hc hsel⟩))))
              | some rt =>
                cases hw : w.WriteField "tags" (tagsValue h client rt) with
                | some e =>
                  exact Or.inr (Or.inr (Or.inr (Or.inr (Or.inr (Or.inl ⟨output, rt, e, rfl,
                    hsel, hw, read_tags_refused h w d client output rt e hc hsel hw⟩)))))
                | none =>
                  exact Or.inr (Or.inr (Or.inr (Or.inr (Or.inr (Or.inr ⟨output, rt, rfl,
                    hsel, hw, read_tags_accepted h w d client output rt hc hsel hw⟩)))))

theorem Set_congr (w : FieldWriter) (d1 d2 : ResourceData) (key : String) (value : Value)
    (hattrs : d1.attrs = d2.attrs) (hId : d1.Id = d2.Id) :
    (d1.Set w key value).1.attrs = (d2.Set w key value).1.attrs ∧
      (d1.Set w key value).1.Id = (d2.Set w key value).1.Id := by
  cases hw : w.WriteField key value with
  | some e =>
    rw [Set_refused w d1 key value e hw, Set_refused w d2 key value e hw]
    exact ⟨hattrs, hId⟩
  | none =>
    rw [Set_accepted w d1 key value hw, Set_accepted w d2 key value hw]
    simp only [hattrs, hId, and_self]

theorem afterScalars_congr (w : FieldWriter) (d1 d2 : ResourceData) (n : Nat)
    (rt : TransitGatewayRouteTable) (hattrs : d1.attrs = d2.attrs) (hId : d1.Id = d2.Id) :
    (afterScalars w d1 n rt).attrs = (afterScalars w d2 n rt).attrs ∧
      (afterScalars w d1 n rt).Id = (afterScalars w d2 n rt).Id := by
  unfold afterScalars
  have s1 := Set_congr w d1 d2 "default_association_route_table"
    (Value.bool (BoolValue rt.DefaultAssociationRouteTable)) hattrs hId
  have s2 := Set_congr w _ _ "default_propagation_route_table"
    (Value.bool (BoolValue rt.DefaultPropagationRouteTable)) s1.1 s1.2
  exact Set_congr w _ _ "index_last" (Value.int (n : Int)) s2.1 s2.2

/-- The outcome, the written attributes and the identifier of a read depend on
the resource data only through the index, the attributes and the identifier it
starts with, and on the client only through the response and the tag-ignore
configuration. -/
theorem read_congr (h : Helpers) (w : FieldWriter) (d1 d2 : ResourceData) (c1 c2 : AWSClient)
    (hidx : d1.GetIndex = d2.GetIndex) (hattrs : d1.attrs = d2.attrs) (hId : d1.Id = d2.Id)
    (hcfg : c1.IgnoreTagsConfig = c2.IgnoreTagsConfig)
    (hresp : c1.DescribeTransitGatewayRouteTables (describeInput h d1) =
      c2.DescribeTransitGatewayRouteTables (describeInput h d2)) :
    (dataSourceAwsEc2TransitGatewayRouteTableRead h w d1 c1).1 =
        (dataSourceAwsEc2TransitGatewayRouteTableRead h w d2 c2).1 ∧
      (dataSourceAwsEc2TransitGatewayRouteTableRead h w d1 c1).2.attrs =
        (dataSourceAwsEc2TransitGatewayRouteTableRead h w d2 c2).2.attrs ∧
      (dataSourceAwsEc2TransitGatewayRouteTableRead h w d1 c1).2.Id =
        (dataSourceAwsEc2TransitGatewayRouteTableRead h w d2 c2).2.Id := by
  have htags : ∀ rt, tagsValue h c1 rt = tagsValue h c2 rt := by
    intro rt
    simp only [tagsValue, hcfg]
  rcases read_cases h w d1 c1 with ⟨e, he, hr⟩ | ⟨out, hc, hem, hr⟩ | ⟨output, hc, h0, h1, hr⟩ |
    ⟨output, hc, h0, h1, hr⟩ | ⟨output, hc, hsel, hr⟩ | ⟨output, rt, e, hc, hsel, hw, hr⟩ |
    ⟨output, rt, hc, hsel, hw, hr⟩
  · rw [hresp] at he
    rw [hr, read_call_error h w d2 c2 e he]
    exact ⟨rfl, hattrs, hId⟩
  · rw [hresp] at hc
    rw [hr, read_no_results h w d2 c2 out hc hem]
    exact ⟨rfl, hattrs, hId⟩
  · rw [hresp] at hc
    rw [hidx] at h1
    rw [hr, read_range_error h w d2 c2 output hc h0 h1]
    exact ⟨rfl, hattrs, hId⟩
  · rw [hresp] at hc
    rw [hidx] at h1
    have hsel : sliceIndex output.TransitGatewayRouteTables d2.GetIndex = none := by
      rcases h1 with hn | hn
      · exact sliceIndex_neg _ _ hn
      · exact sliceIndex_ge _ _ (by omega)
    rw [hr, read_out_of_bounds h w d2 c2 output hc h0 (by omega) hsel]
    exact ⟨rfl, hattrs, hId⟩
  · rw [hresp] at hc
    rw [hidx] at hsel
    rw [hr, read_selected_nil h w d2 c2 output hc hsel]
    exact ⟨rfl, hattrs, hId⟩
  · rw [hresp] at hc
    rw [hidx] at hsel
    rw [htags] at hw
    rw [hr, read_tags_refused h w d2 c2 output rt e hc hsel hw]
    exact ⟨rfl, afterScalars_congr w d1 d2 _ rt hattrs hId⟩
  · rw [hresp] at hc
    rw [hidx] at hsel
    have hw2 := hw
    rw [htags] at hw2
    rw [hr, read_tags_accepted h w d2 c2 output rt hc hsel hw2, htags]
    have s3 := afterScalars_congr w d1 d2 output.TransitGatewayRouteTables.length rt hattrs hId
    have s4 := Set_congr w _ _ "tags" (tagsValue h c2 rt) s3.1 s3.2
    have s5 := Set_congr w _ _ "transit_gateway_id"
      (Value.str (StringValue rt.TransitGatewayId)) s4.1 s4.2
    exact ⟨rfl, s5.1, rfl⟩

/-! ## The writes under the declared schema -/

theorem schemaWriter_bool_association (b : Bool) :
    schemaWriter.WriteField "default_association_route_table" (Value.bool b) = none := by
  simp [schemaWriter, dataSourceAwsEc2TransitGatewayRouteTable, List.lookup_cons, Value.hasType]

theorem schemaWriter_bool_propagation (b : Bool) :
    schemaWriter.WriteField "default_propagation_route_table" (Value.bool b) = none := by
  simp [schemaWriter, dataSourceAwsEc2TransitGatewayRouteTable, List.lookup_cons, Value.hasType]

theorem schemaWriter_index_last (i : Int) :
    schemaWriter.WriteField "index_last" (Value.int i) = none := by
  simp [schemaWriter, dataSourceAwsEc2TransitGatewayRouteTable, List.lookup_cons, Value.hasType]

theorem schemaWriter_tags (m : List (String × String)) :
    schemaWriter.WriteField "tags" (Value.map m) = none := by
  simp [schemaWriter, dataSourceAwsEc2TransitGatewayRouteTable, List.lookup_cons, Value.hasType,
    tagsSchemaComputed]

theorem schemaWriter_transit_gateway_id (v : String) :
    schemaWriter.WriteField "transit_gateway_id" (Value.str v) = none := by
  simp [schemaWriter, dataSourceAwsEc2TransitGatewayRouteTable, List.lookup_cons, Value.hasType]

/-- Under the declared schema, a selected route table that is not nil is
written in full and the read returns nil. -/
theorem read_schema_selected (h : Helpers) (d : ResourceData) (client : AWSClient)
    (output : DescribeTransitGatewayRouteTablesOutput) (rt : TransitGatewayRouteTable)
    (hcall : client.DescribeTransitGatewayRouteTables (describeInput h d) = (some output, none))
    (hsel : sliceIndex output.TransitGatewayRouteTables d.GetIndex = some (some rt)) :
    (dataSourceAwsEc2TransitGatewayRouteTableRead h schemaWriter d client).1 = Outcome.ok ∧
      (dataSourceAwsEc2TransitGatewayRouteTableRead h schemaWriter d client).2.attr
          "default_association_route_table" =
        some (Value.bool (BoolValue rt.DefaultAssociationRouteTable)) ∧
      (dataSourceAwsEc2TransitGatewayRouteTableRead h schemaWriter d client).2.attr
          "default_propagation_route_table" =
        some (Value.bool (BoolValue rt.DefaultPropagationRouteTable)) ∧
      (dataSourceAwsEc2TransitGatewayRouteTableRead h schemaWriter d client).2.attr
          "transit_gateway_id" =
        some (Value.str (StringValue rt.TransitGatewayId)) ∧
      (dataSourceAwsEc2TransitGatewayRouteTableRead h schemaWriter d client).2.attr "tags" =
        some (Value.map (h.Map (h.IgnoreConfig (h.IgnoreAws (h.Ec2KeyValueTags rt.Tags))
          client.IgnoreTagsConfig))) ∧
      (dataSourceAwsEc2TransitGatewayRouteTableRead h schemaWriter d client).2.Id =
        some (StringValue rt.TransitGatewayRouteTableId) ∧
      (dataSourceAwsEc2TransitGatewayRouteTableRead h schemaWriter d client).2.attr "index_last" =
        some (Value.int (output.TransitGatewayRouteTables.length : Int)) := by
  rw [read_selected h schemaWriter d client output rt hcall hsel]
  simp [Set_accepted _ _ _ _ (schemaWriter_bool_association _),
    Set_accepted _ _ _ _ (schemaWriter_bool_propagation _),
    Set_accepted _ _ _ _ (schemaWriter_index_last _),
    Set_accepted _ _ _ _ (schemaWriter_tags _),
    Set_accepted _ _ _ _ (schemaWriter_transit_gateway_id _),
    ResourceData.attr, ResourceData.SetId, List.lookup_cons]

/-- Under the declared schema, a read that does not return nil leaves the
resource data as it was. -/
theorem read_schema_not_ok (h : Helpers) (d : ResourceData) (client : AWSClient)
    (hne : (dataSourceAwsEc2TransitGatewayRouteTableRead h schemaWriter d client).1 ≠
      Outcome.ok) :
    (dataSourceAwsEc2TransitGatewayRouteTableRead h schemaWriter d client).2 = d := by
  rcases read_cases h schemaWriter d client with
    ⟨e, _, hr⟩ | ⟨out, _, _, hr⟩ | ⟨output, _, _, _, hr⟩ |
    ⟨output, _, _, _, hr⟩ | ⟨output, _, _, hr⟩ | ⟨output, rt, e, _, _, hw, _⟩ |
    ⟨output, rt, _, _, _, hr⟩
  · rw [hr]
  · rw [hr]
  · rw [hr]
  · rw [hr]
  · rw [hr]
  · rw [tagsValue, schemaWriter_tags] at hw
    cases hw
  · rw [hr] at hne
    exact absurd rfl hne

/-- The read function when the index equals the number of records: the range
check lets it through and the element access is out of bounds. -/
theorem read_at_length (h : Helpers) (w : FieldWriter) (d : ResourceData)
    (client : AWSClient) (output : DescribeTransitGatewayRouteTablesOutput)
    (hcall : client.DescribeTransitGatewayRouteTables (describeInput h d) = (some output, none))
    (hN : 1 ≤ output.TransitGatewayRouteTables.length)
    (hidx : d.GetIndex = (output.TransitGatewayRouteTables.length : Int)) :
    dataSourceAwsEc2TransitGatewayRouteTableRead h w d client = (Outcome.panic, d) :=
  read_out_of_bounds h w d client output hcall (by omega) (by omega)
    (sliceIndex_ge _ _ (by omega))

/-! ## The error returns -/

/-- C6: whenever the describe call returns an error `e`, whatever the index and
whatever output comes with it, the read returns the error
`error reading EC2 Transit Gateway Route Table: ` followed by `e`, a message that
ends with the text of `e`, and leaves the resource data as it was. -/
theorem read_query_error (h : Helpers) (w : FieldWriter) (d : ResourceData) (client : AWSClient)
    (e : GoError)
    (herr : (client.DescribeTransitGatewayRouteTables (describeInput h d)).2 = some e) :
    dataSourceAwsEc2TransitGatewayRouteTableRead h w d client =
        (Outcome.error ("error reading EC2 Transit Gateway Route Table: " ++ e), d) ∧
      List.IsSuffix e.data ("error reading EC2 Transit Gateway Route Table: " ++ e).data := by
  refine ⟨read_call_error h w d client e herr, ?_⟩
  rw [String.data_append]
  exact List.suffix_append _ _

/-- Witness of C6: a throttled call that also hands back an output, read with a
negative index. -/
theorem read_query_error_witness :
    dataSourceAwsEc2TransitGatewayRouteTableRead sampleHelpers acceptAll (sampleData (some (-4)))
        (constClient (some { TransitGatewayRouteTables := [some sampleTable1] },
          some "RequestLimitExceeded: rate exceeded")) =
        (Outcome.error ("error reading EC2 Transit Gateway Route Table: " ++
          "RequestLimitExceeded: rate exceeded"), sampleData (some (-4))) ∧
      List.IsSuffix ("RequestLimitExceeded: rate exceeded" : String).data
        ("error reading EC2 Transit Gateway Route Table: " ++
          "RequestLimitExceeded: rate exceeded").data :=
  read_query_error sampleHelpers acceptAll (sampleData (some (-4)))
    (constClient (some { TransitGatewayRouteTables := [some sampleTable1] },
      some "RequestLimitExceeded: rate exceeded")) "RequestLimitExceeded: rate exceeded" rfl

/-- C5: whenever the describe call succeeds with a nil output or with a list of
no record, the read returns the error
`error reading EC2 Transit Gateway Route Table: no results found`, for every
resource data and so for every index: the range check is not consulted. -/
theorem read_empty_result (h : Helpers) (w : FieldWriter) (d : ResourceData) (client : AWSClient)
    (out : Option DescribeTransitGatewayRouteTablesOutput)
    (hcall : client.DescribeTransitGatewayRouteTables (describeInput h d) = (out, none))
    (hempty : out = none ∨
      ∃ output, out = some output ∧ output.TransitGatewayRouteTables.length = 0) :
    dataSourceAwsEc2TransitGatewayRouteTableRead h w d client =
      (Outcome.error "error reading EC2 Transit Gateway Route Table: no results found", d) := by
  apply read_no_results h w d client out hcall
  intro output ho
  rcases hempty with hn | ⟨o, ho', hl⟩
  · rw [hn] at ho
    cases ho
  · rw [ho'] at ho
    cases ho
    exact hl

/-- Witness of C5: an empty list read with index 7, which is above the length. -/
theorem read_empty_result_witness :
    dataSourceAwsEc2TransitGatewayRouteTableRead sampleHelpers acceptAll (sampleData (some 7))
        (constClient (some { TransitGatewayRouteTables := [] }, none)) =
      (Outcome.error "error reading EC2 Transit Gateway Route Table: no results found",
        sampleData (some 7)) :=
  read_empty_result sampleHelpers acceptAll (sampleData (some 7))
    (constClient (some { TransitGatewayRouteTables := [] }, none))
    (some { TransitGatewayRouteTables := [] }) rfl (Or.inr ⟨_, rfl, rfl⟩)

/-- C4: whenever the describe call succeeds with N ≥ 1 records and the index is
above N, the read returns the error `Index out of range` and the resource data
is the one before the call. -/
theorem read_index_above (h : Helpers) (w : FieldWriter) (d : ResourceData) (client : AWSClient)
    (output : DescribeTransitGatewayRouteTablesOutput)
    (hcall : client.DescribeTransitGatewayRouteTables (describeInput h d) = (some output, none))
    (hN : 1 ≤ output.TransitGatewayRouteTables.length)
    (hidx : d.GetIndex > (output.TransitGatewayRouteTables.length : Int)) :
    dataSourceAwsEc2TransitGatewayRouteTableRead h w d client =
      (Outcome.error "Index out of range", d) :=
  read_range_error h w d client output hcall (by omega) hidx

/-- Witness of C4: two records read with index 3. -/
theorem read_index_above_witness :
    dataSourceAwsEc2TransitGatewayRouteTableRead sampleHelpers acceptAll (sampleData (some 3))
        sampleClient =
      (Outcome.error "Index out of range", sampleData (some 3)) :=
  read_index_above sampleHelpers acceptAll (sampleData (some 3)) sampleClient
    { TransitGatewayRouteTables := [some sampleTable1, some sampleTable2] } rfl
    (by decide) (by decide)

/-- C7: whenever the describe call succeeds with N ≥ 1 records, the index is
within 0 and N - 1 and the slot at the index holds a nil pointer, the read
returns the error `error reading EC2 Transit Gateway Route Table: empty result`,
whatever the other slots hold, and the resource data is the one before the call. -/
theorem read_nil_record (h : Helpers) (w : FieldWriter) (d : ResourceData) (client : AWSClient)
    (output : DescribeTransitGatewayRouteTablesOutput)
    (hcall : client.DescribeTransitGatewayRouteTables (describeInput h d) = (some output, none))
    (hlo : 0 ≤ d.GetIndex)
    (hhi : d.GetIndex < (output.TransitGatewayRouteTables.length : Int))
    (hnil : output.TransitGatewayRouteTables.get? d.GetIndex.toNat = some none) :
    dataSourceAwsEc2TransitGatewayRouteTableRead h w d client =
      (Outcome.error "error reading EC2 Transit Gateway Route Table: empty result", d) := by
  apply read_selected_nil h w d client output hcall
  rw [sliceIndex_eq_get? _ _ hlo hhi]
  exact hnil

/-- Witness of C7: a nil pointer between two route tables, read with index 1. -/
theorem read_nil_record_witness :
    dataSourceAwsEc2TransitGatewayRouteTableRead sampleHelpers acceptAll (sampleData (some 1))
        (constClient (some { TransitGatewayRouteTables :=
          [some sampleTable1, none, some sampleTable2] }, none)) =
      (Outcome.error "error reading EC2 Transit Gateway Route Table: empty result",
        sampleData (some 1)) :=
  read_nil_record sampleHelpers acceptAll (sampleData (some 1))
    (constClient (some { TransitGatewayRouteTables :=
      [some sampleTable1, none, some sampleTable2] }, none))
    { TransitGatewayRouteTables := [some sampleTable1, none, some sampleTable2] } rfl
    (by decide) (by decide) rfl

/-! ## The index one past the end -/

/-- C2: with two records and index 2, one past the last element, the range
check of line 77 does not reject the read, and no error is returned at all:
neither `Index out of range` nor the empty-record error. The element access of
line 81 is out of bounds and the read aborts with a run-time panic, the
resource data being the one before the call. With index 3 the same range check
returns `Index out of range`. -/
theorem read_index_at_length_failing_input :
    dataSourceAwsEc2TransitGatewayRouteTableRead sampleHelpers schemaWriter (sampleData (some 2))
        sampleClient = (Outcome.panic, sampleData (some 2)) ∧
      (dataSourceAwsEc2TransitGatewayRouteTableRead sampleHelpers schemaWriter
        (sampleData (some 2)) sampleClient).1 ≠
        Outcome.error "error reading EC2 Transit Gateway Route Table: empty result" ∧
      (dataSourceAwsEc2TransitGatewayRouteTableRead sampleHelpers schemaWriter
        (sampleData (some 2)) sampleClient).1 ≠ Outcome.error "Index out of range" ∧
      dataSourceAwsEc2TransitGatewayRouteTableRead sampleHelpers schemaWriter (sampleData (some 3))
        sampleClient = (Outcome.error "Index out of range", sampleData (some 3)) := by
  have hp := read_at_length sampleHelpers schemaWriter (sampleData (some 2)) sampleClient
    { TransitGatewayRouteTables := [some sampleTable1, some sampleTable2] } rfl
    (by decide) (by decide)
  rw [hp]
  refine ⟨rfl, ?_, ?_, ?_⟩
  · intro hc
    cases hc
  · intro hc
    cases hc
  · exact read_range_error sampleHelpers schemaWriter (sampleData (some 3)) sampleClient
      { TransitGatewayRouteTables := [some sampleTable1, some sampleTable2] } rfl
      (by decide) (by decide)

/-! ## The selected record -/

/-- C1: whenever the describe call succeeds with N ≥ 1 records none of which is
nil and the index is within 0 and N - 1, the read returns nil and the attributes
hold the fields of the record at the index: the two default flags and the
transit gateway identifier are that record's values, `tags` is the tag pipeline
applied to that record's tags, the resource identifier is that record's route
table identifier, and `index_last` is N. -/
theorem read_selects_record (h : Helpers) (d : ResourceData)
    (client : AWSClient) (output : DescribeTransitGatewayRouteTablesOutput)
    (hcall : client.DescribeTransitGatewayRouteTables (describeInput h d) = (some output, none))
    (hnonnil : ∀ r ∈ output.TransitGatewayRouteTables, r ≠ none)
    (hlo : 0 ≤ d.GetIndex)
    (hhi : d.GetIndex ≤ (output.TransitGatewayRouteTables.length : Int) - 1) :
    ∃ rt, output.TransitGatewayRouteTables.get? d.GetIndex.toNat = some (some rt) ∧
      (dataSourceAwsEc2TransitGatewayRouteTableRead h schemaWriter d client).1 = Outcome.ok ∧
      (dataSourceAwsEc2TransitGatewayRouteTableRead h schemaWriter d client).2.attr
          "default_association_route_table" =
        some (Value.bool (BoolValue rt.DefaultAssociationRouteTable)) ∧
      (dataSourceAwsEc2TransitGatewayRouteTableRead h schemaWriter d client).2.attr
          "default_propagation_route_table" =
        some (Value.bool (BoolValue rt.DefaultPropagationRouteTable)) ∧
      (dataSourceAwsEc2TransitGatewayRouteTableRead h schemaWriter d client).2.attr
          "transit_gateway_id" =
        some (Value.str (StringValue rt.TransitGatewayId)) ∧
      (dataSourceAwsEc2TransitGatewayRouteTableRead h schemaWriter d client).2.attr "tags" =
        some (Value.map (h.Map (h.IgnoreConfig (h.IgnoreAws (h.Ec2KeyValueTags rt.Tags))
          client.IgnoreTagsConfig))) ∧
      (dataSourceAwsEc2TransitGatewayRouteTableRead h schemaWriter d client).2.Id =
        some (StringValue rt.TransitGatewayRouteTableId) ∧
      (dataSourceAwsEc2TransitGatewayRouteTableRead h schemaWriter d client).2.attr "index_last" =
        some (Value.int (output.TransitGatewayRouteTables.length : Int)) := by
  have hlt : d.GetIndex.toNat < output.TransitGatewayRouteTables.length := by omega
  have hget : output.TransitGatewayRouteTables.get? d.GetIndex.toNat =
      some (output.TransitGatewayRouteTables.get ⟨d.GetIndex.toNat, hlt⟩) :=
    List.get?_eq_get hlt
  have hmem := List.get_mem output.TransitGatewayRouteTables d.GetIndex.toNat hlt
  cases hr : output.TransitGatewayRouteTables.get ⟨d.GetIndex.toNat, hlt⟩ with
  | none =>
    rw [hr] at hmem
    exact absurd rfl (hnonnil none hmem)
  | some rt =>
    rw [hr] at hget
    have hsel : sliceIndex output.TransitGatewayRouteTables d.GetIndex = some (some rt) := by
      rw [sliceIndex_eq_get? _ _ hlo (by omega)]
      exact hget
    exact ⟨rt, hget, read_schema_selected h d client output rt hcall hsel⟩

/-- Witness of C1: the scenario of the documentation, index 1 of two records. -/
theorem read_selects_record_witness :
    ∃ rt, [some sampleTable1, some sampleTable2].get? (1 : Int).toNat = some (some rt) ∧
      (dataSourceAwsEc2TransitGatewayRouteTableRead sampleHelpers schemaWriter
        (sampleData (some 1)) sampleClient).1 = Outcome.ok ∧
      (dataSourceAwsEc2TransitGatewayRouteTableRead sampleHelpers schemaWriter
        (sampleData (some 1)) sampleClient).2.attr "default_association_route_table" =
        some (Value.bool (BoolValue rt.DefaultAssociationRouteTable)) ∧
      (dataSourceAwsEc2TransitGatewayRouteTableRead sampleHelpers schemaWriter
        (sampleData (some 1)) sampleClient).2.attr "default_propagation_route_table" =
        some (Value.bool (BoolValue rt.DefaultPropagationRouteTable)) ∧
      (dataSourceAwsEc2TransitGatewayRouteTableRead sampleHelpers schemaWriter
        (sampleData (some 1)) sampleClient).2.attr "transit_gateway_id" =
        some (Value.str (StringValue rt.TransitGatewayId)) ∧
      (dataSourceAwsEc2TransitGatewayRouteTableRead sampleHelpers schemaWriter
        (sampleData (some 1)) sampleClient).2.attr "tags" =
        some (Value.map (sampleHelpers.Map (sampleHelpers.IgnoreConfig (sampleHelpers.IgnoreAws
          (sampleHelpers.Ec2KeyValueTags rt.Tags)) sampleClient.IgnoreTagsConfig))) ∧
      (dataSourceAwsEc2TransitGatewayRouteTableRead sampleHelpers schemaWriter
        (sampleData (some 1)) sampleClient).2.Id =
        some (StringValue rt.TransitGatewayRouteTableId) ∧
      (dataSourceAwsEc2TransitGatewayRouteTableRead sampleHelpers schemaWriter
        (sampleData (some 1)) sampleClient).2.attr "index_last" =
        some (Value.int ((2 : Nat) : Int)) :=
  read_selects_record sampleHelpers (sampleData (some 1)) sampleClient
    { TransitGatewayRouteTables := [some sampleTable1, some sampleTable2] } rfl
    (by decide) (by decide) (by decide)

/-! ## Errors and the resource data -/

/-- C3: a read ends with the result fully written or with nothing written.
Whenever it returns an error, whichever it is, the resource data is the one
before the call: no attribute and no identifier has been written. The same
holds when it aborts. Whenever it returns nil, the five attributes and the
identifier have all been written, from the record at the index. -/
theorem read_error_state (h : Helpers) (d : ResourceData) (client : AWSClient) :
    (∀ msg, (dataSourceAwsEc2TransitGatewayRouteTableRead h schemaWriter d client).1 =
        Outcome.error msg →
      (dataSourceAwsEc2TransitGatewayRouteTableRead h schemaWriter d client).2 = d) ∧
    ((dataSourceAwsEc2TransitGatewayRouteTableRead h schemaWriter d client).1 = Outcome.panic →
      (dataSourceAwsEc2TransitGatewayRouteTableRead h schemaWriter d client).2 = d) ∧
    ((dataSourceAwsEc2TransitGatewayRouteTableRead h schemaWriter d client).1 = Outcome.ok →
      ∃ output rt,
        client.DescribeTransitGatewayRouteTables (describeInput h d) = (some output, none) ∧
        sliceIndex output.TransitGatewayRouteTables d.GetIndex = some (some rt) ∧
        (dataSourceAwsEc2TransitGatewayRouteTableRead h schemaWriter d client).2.attr
            "default_association_route_table" =
          some (Value.bool (BoolValue rt.DefaultAssociationRouteTable)) ∧
        (dataSourceAwsEc2TransitGatewayRouteTableRead h schemaWriter d client).2.attr
            "default_propagation_route_table" =
          some (Value.bool (BoolValue rt.DefaultPropagationRouteTable)) ∧
        (dataSourceAwsEc2TransitGatewayRouteTableRead h schemaWriter d client).2.attr
            "index_last" =
          some (Value.int (output.TransitGatewayRouteTables.length : Int)) ∧
        (dataSourceAwsEc2TransitGatewayRouteTableRead h schemaWriter d client).2.attr "tags" =
          some (Value.map (h.Map (h.IgnoreConfig (h.IgnoreAws (h.Ec2KeyValueTags rt.Tags))
            client.IgnoreTagsConfig))) ∧
        (dataSourceAwsEc2TransitGatewayRouteTableRead h schemaWriter d client).2.attr
            "transit_gateway_id" =
          some (Value.str (StringValue rt.TransitGatewayId)) ∧
        (dataSourceAwsEc2TransitGatewayRouteTableRead h schemaWriter d client).2.Id =
          some (StringValue rt.TransitGatewayRouteTableId)) := by
  refine ⟨?_, ?_, ?_⟩
  · intro msg herr
    apply read_schema_not_ok
    rw [herr]
    intro hc
    cases hc
  · intro hp
    apply read_schema_not_ok
    rw [hp]
    intro hc
    cases hc
  · intro hok
    rcases read_cases h schemaWriter d client with
      ⟨e, _, hr⟩ | ⟨out, _, _, hr⟩ | ⟨output, _, _, _, hr⟩ |
      ⟨output, _, _, _, hr⟩ | ⟨output, _, _, hr⟩ | ⟨output, rt, e, _, _, _, hr⟩ |
      ⟨output, rt, hc, hsel, _, _⟩
    · rw [hr] at hok
      cases hok
    · rw [hr] at hok
      cases hok
    · rw [hr] at hok
      cases hok
    · rw [hr] at hok
      cases hok
    · rw [hr] at hok
      cases hok
    · rw [hr] at hok
      cases hok
    · obtain ⟨_, a1, a2, a3, a4, a5, a6⟩ := read_schema_selected h d client output rt hc hsel
      exact ⟨output, rt, hc, hsel, a1, a2, a6, a4, a3, a5⟩

/-- Witness of C3: a nil slot between two route tables read with index 1 on
resource data that already holds an attribute and an identifier: the error
leaves both as they were. -/
theorem read_error_state_witness :
    (dataSourceAwsEc2TransitGatewayRouteTableRead sampleHelpers schemaWriter
        { sampleData (some 1) with
          attrs := [("index_last", Value.int 5)], Id := some "tgw-rtb-0" }
        (constClient (some { TransitGatewayRouteTables :=
          [some sampleTable1, none, some sampleTable2] }, none))).2 =
      { sampleData (some 1) with
        attrs := [("index_last", Value.int 5)], Id := some "tgw-rtb-0" } :=
  (read_error_state sampleHelpers
    { sampleData (some 1) with attrs := [("index_last", Value.int 5)], Id := some "tgw-rtb-0" }
    (constClient (some { TransitGatewayRouteTables :=
      [some sampleTable1, none, some sampleTable2] }, none))).1
    "error reading EC2 Transit Gateway Route Table: empty result"
    (by rw [read_selected_nil sampleHelpers schemaWriter _
      (constClient (some { TransitGatewayRouteTables :=
        [some sampleTable1, none, some sampleTable2] }, none))
      { TransitGatewayRouteTables := [some sampleTable1, none, some sampleTable2] } rfl
      (by decide)])

/-! ## The request -/

/-- C9: the request sent to the describe call has the identifier list made of
the one configured `id` when `id` is set and not empty, and unset otherwise; it
has the filters built from the `filter` blocks when there are some, and unset
otherwise; the configured `index` does not change it; and the read consults the
describe operation at this request only. -/
theorem describeInput_spec (h : Helpers) (d : ResourceData) :
    (describeInput h d).TransitGatewayRouteTableIds =
        (match d.id with
         | some s => if s = "" then none else some [some s]
         | none => none) ∧
      (describeInput h d).Filters =
        (if d.filter = [] then none else some (h.buildAwsDataSourceFilters d.filter)) ∧
      (∀ i, describeInput h { d with index := i } = describeInput h d) ∧
      (∀ (w : FieldWriter) (client client' : AWSClient),
        client.DescribeTransitGatewayRouteTables (describeInput h d) =
          client'.DescribeTransitGatewayRouteTables (describeInput h d) →
        client.IgnoreTagsConfig = client'.IgnoreTagsConfig →
        dataSourceAwsEc2TransitGatewayRouteTableRead h w d client =
          dataSourceAwsEc2TransitGatewayRouteTableRead h w d client') := by
  refine ⟨?_, ?_, fun i => rfl, ?_⟩
  · cases hf : d.GetOkFilter <;> cases hi : d.id with
    | none => simp [describeInput, ResourceData.GetOkId, hf, hi]
    | some s => by_cases hs : s = "" <;> simp [describeInput, ResourceData.GetOkId, hf, hi, hs]
  · cases hi : d.GetOkId <;> cases hf : d.filter <;>
      simp [describeInput, ResourceData.GetOkFilter, hf, hi]
  · intro w client client' hresp hcfg
    unfold dataSourceAwsEc2TransitGatewayRouteTableRead
    simp only [hresp, hcfg]

/-- Witness of C9: a client answering only the request made of the filter and
of the identifier gives the same read as one answering every request. -/
theorem describeInput_spec_witness :
    dataSourceAwsEc2TransitGatewayRouteTableRead sampleHelpers acceptAll
        { sampleData (some 1) with id := some "tgw-rtb-2" } sampleClient =
      dataSourceAwsEc2TransitGatewayRouteTableRead sampleHelpers acceptAll
        { sampleData (some 1) with id := some "tgw-rtb-2" }
        { sampleClient with
          DescribeTransitGatewayRouteTables := fun input =>
            if input = { Filters := some [{ Name := some "transit-gateway-id",
                                            Values := [some "tgw-123"] }],
                         TransitGatewayRouteTableIds := some [some "tgw-rtb-2"] }
            then (some { TransitGatewayRouteTables := [some sampleTable1, some sampleTable2] },
              none)
            else (none, some "unexpected request") } :=
  (describeInput_spec sampleHelpers { sampleData (some 1) with id := some "tgw-rtb-2" }).2.2.2
    acceptAll sampleClient _ (by decide) rfl

/-! ## The identity of the result -/

/-- C8: two reads whose resource data differ only in the configured `id` and
`filter`, run with the same tag-ignore configuration and answered with the same
response, end the same way: same outcome (nil, the same error or a panic), same
written attributes and same identifier. When they return nil the identifier is
the route table identifier of the record at the index, whatever `id` was
configured. -/
theorem read_identity_from_record (h : Helpers) (w : FieldWriter) (d : ResourceData)
    (c1 c2 : AWSClient) (id1 id2 : Option String) (f1 f2 : List FilterBlock)
    (hcfg : c1.IgnoreTagsConfig = c2.IgnoreTagsConfig)
    (hresp : c1.DescribeTransitGatewayRouteTables
        (describeInput h { d with id := id1, filter := f1 }) =
      c2.DescribeTransitGatewayRouteTables
        (describeInput h { d with id := id2, filter := f2 })) :
    (dataSourceAwsEc2TransitGatewayRouteTableRead h w { d with id := id1, filter := f1 } c1).1 =
        (dataSourceAwsEc2TransitGatewayRouteTableRead h w
          { d with id := id2, filter := f2 } c2).1 ∧
      (dataSourceAwsEc2TransitGatewayRouteTableRead h w
          { d with id := id1, filter := f1 } c1).2.attrs =
        (dataSourceAwsEc2TransitGatewayRouteTableRead h w
          { d with id := id2, filter := f2 } c2).2.attrs ∧
      (dataSourceAwsEc2TransitGatewayRouteTableRead h w
          { d with id := id1, filter := f1 } c1).2.Id =
        (dataSourceAwsEc2TransitGatewayRouteTableRead h w
          { d with id := id2, filter := f2 } c2).2.Id ∧
      ((dataSourceAwsEc2TransitGatewayRouteTableRead h w
          { d with id := id1, filter := f1 } c1).1 = Outcome.ok →
        ∃ output rt,
          c1.DescribeTransitGatewayRouteTables
            (describeInput h { d with id := id1, filter := f1 }) = (some output, none) ∧
          sliceIndex output.TransitGatewayRouteTables d.GetIndex = some (some rt) ∧
          (dataSourceAwsEc2TransitGatewayRouteTableRead h w
            { d with id := id1, filter := f1 } c1).2.Id =
            some (StringValue rt.TransitGatewayRouteTableId)) := by
  obtain ⟨e1, e2, e3⟩ := read_congr h w { d with id := id1, filter := f1 }
    { d with id := id2, filter := f2 } c1 c2 rfl rfl rfl hcfg hresp
  refine ⟨e1, e2, e3, ?_⟩
  intro hok
  rcases read_cases h w { d with id := id1, filter := f1 } c1 with
    ⟨e, _, hr⟩ | ⟨out, _, _, hr⟩ | ⟨output, _, _, _, hr⟩ |
    ⟨output, _, _, _, hr⟩ | ⟨output, _, _, hr⟩ | ⟨output, rt, e, _, _, _, hr⟩ |
    ⟨output, rt, hc, hsel, _, hr⟩
  · rw [hr] at hok
    cases hok
  · rw [hr] at hok
    cases hok
  · rw [hr] at hok
    cases hok
  · rw [hr] at hok
    cases hok
  · rw [hr] at hok
    cases hok
  · rw [hr] at hok
    cases hok
  · exact ⟨output, rt, hc, hsel, by rw [hr]; rfl⟩

/-- Witness of C8: the identifier `tgw-rtb-1` with the sample filter and the
identifier `tgw-rtb-9` with no filter, both answered with the two sample
records and read with index 1. -/
theorem read_identity_from_record_witness :
    (dataSourceAwsEc2TransitGatewayRouteTableRead sampleHelpers acceptAll
        { sampleData (some 1) with
          id := some "tgw-rtb-1", filter := (sampleData (some 1)).filter } sampleClient).1 =
        (dataSourceAwsEc2TransitGatewayRouteTableRead sampleHelpers acceptAll
          { sampleData (some 1) with id := some "tgw-rtb-9", filter := [] } sampleClient).1 ∧
      (dataSourceAwsEc2TransitGatewayRouteTableRead sampleHelpers acceptAll
          { sampleData (some 1) with
            id := some "tgw-rtb-1", filter := (sampleData (some 1)).filter } sampleClient).2.attrs =
        (dataSourceAwsEc2TransitGatewayRouteTableRead sampleHelpers acceptAll
          { sampleData (some 1) with id := some "tgw-rtb-9", filter := [] } sampleClient).2.attrs ∧
      (dataSourceAwsEc2TransitGatewayRouteTableRead sampleHelpers acceptAll
          { sampleData (some 1) with
            id := some "tgw-rtb-1", filter := (sampleData (some 1)).filter } sampleClient).2.Id =
        (dataSourceAwsEc2TransitGatewayRouteTableRead sampleHelpers acceptAll
          { sampleData (some 1) with id := some "tgw-rtb-9", filter := [] } sampleClient).2.Id ∧
      ((dataSourceAwsEc2TransitGatewayRouteTableRead sampleHelpers acceptAll
          { sampleData (some 1) with
            id := some "tgw-rtb-1", filter := (sampleData (some 1)).filter } sampleClient).1 =
          Outcome.ok →
        ∃ output rt,
          sampleClient.DescribeTransitGatewayRouteTables
            (describeInput sampleHelpers { sampleData (some 1) with
              id := some "tgw-rtb-1", filter := (sampleData (some 1)).filter }) =
            (some output, none) ∧
          sliceIndex output.TransitGatewayRouteTables (sampleData (some 1)).GetIndex =
            some (some rt) ∧
          (dataSourceAwsEc2TransitGatewayRouteTableRead sampleHelpers acceptAll
            { sampleData (some 1) with
              id := some "tgw-rtb-1", filter := (sampleData (some 1)).filter } sampleClient).2.Id =
            some (StringValue rt.TransitGatewayRouteTableId)) :=
  read_identity_from_record sampleHelpers acceptAll (sampleData (some 1)) sampleClient
    sampleClient (some "tgw-rtb-1") (some "tgw-rtb-9") (sampleData (some 1)).filter [] rfl rfl

/-! ## When the read succeeds -/

/-- C10: assuming every attribute write is accepted, the read returns nil
exactly when the describe call returns no error and an output of N ≥ 1 records,
the index is within 0 and N - 1 and the slot at the index is not nil. So a
negative index never gives nil, nor does an index equal to N; and with a
negative index and a successful response of N ≥ 1 records no error is returned:
the read reaches the element access and aborts there. -/
theorem read_ok_iff (h : Helpers) (w : FieldWriter) (d : ResourceData) (client : AWSClient)
    (hw : ∀ key value, w.WriteField key value = none) :
    ((dataSourceAwsEc2TransitGatewayRouteTableRead h w d client).1 = Outcome.ok ↔
        ∃ output rt,
          client.DescribeTransitGatewayRouteTables (describeInput h d) = (some output, none) ∧
          1 ≤ output.TransitGatewayRouteTables.length ∧
          0 ≤ d.GetIndex ∧ d.GetIndex < (output.TransitGatewayRouteTables.length : Int) ∧
          output.TransitGatewayRouteTables.get? d.GetIndex.toNat = some (some rt)) ∧
      (d.GetIndex < 0 →
        (dataSourceAwsEc2TransitGatewayRouteTableRead h w d client).1 ≠ Outcome.ok) ∧
      (∀ output,
        (client.DescribeTransitGatewayRouteTables (describeInput h d)).1 = some output →
        d.GetIndex = (output.TransitGatewayRouteTables.length : Int) →
        (dataSourceAwsEc2TransitGatewayRouteTableRead h w d client).1 ≠ Outcome.ok) ∧
      (∀ output,
        client.DescribeTransitGatewayRouteTables (describeInput h d) = (some output, none) →
        1 ≤ output.TransitGatewayRouteTables.length → d.GetIndex < 0 →
        dataSourceAwsEc2TransitGatewayRouteTableRead h w d client = (Outcome.panic, d)) := by
  have hiff : (dataSourceAwsEc2TransitGatewayRouteTableRead h w d client).1 = Outcome.ok ↔
      ∃ output rt,
        client.DescribeTransitGatewayRouteTables (describeInput h d) = (some output, none) ∧
        1 ≤ output.TransitGatewayRouteTables.length ∧
        0 ≤ d.GetIndex ∧ d.GetIndex < (output.TransitGatewayRouteTables.length : Int) ∧
        output.TransitGatewayRouteTables.get? d.GetIndex.toNat = some (some rt) := by
    constructor
    · intro hok
      rcases read_cases h w d client with
        ⟨e, _, hr⟩ | ⟨out, _, _, hr⟩ | ⟨output, _, _, _, hr⟩ |
        ⟨output, _, _, _, hr⟩ | ⟨output, _, _, hr⟩ | ⟨output, rt, e, _, _, _, hr⟩ |
        ⟨output, rt, hc, hsel, _, hr⟩
      · rw [hr] at hok
        cases hok
      · rw [hr] at hok
        cases hok
      · rw [hr] at hok
        cases hok
      · rw [hr] at hok
        cases hok
      · rw [hr] at hok
        cases hok
      · rw [hr] at hok
        cases hok
      · have hb := (sliceIndex_isSome output.TransitGatewayRouteTables d.GetIndex).1
          (by simp [hsel])
        refine ⟨output, rt, hc, by omega, hb.1, hb.2, ?_⟩
        rw [← sliceIndex_eq_get? _ _ hb.1 hb.2]
        exact hsel
    · rintro ⟨output, rt, hc, _, hlo, hhi, hget⟩
      have hsel : sliceIndex output.TransitGatewayRouteTables d.GetIndex = some (some rt) := by
        rw [sliceIndex_eq_get? _ _ hlo hhi]
        exact hget
      rw [read_tags_accepted h w d client output rt hc hsel (hw _ _)]
  refine ⟨hiff, ?_, ?_, ?_⟩
  · intro hneg hok
    obtain ⟨output, rt, _, _, hlo, _, _⟩ := hiff.1 hok
    omega
  · intro output hout hidx hok
    obtain ⟨output', rt, hc, _, _, hhi, _⟩ := hiff.1 hok
    rw [hc] at hout
    simp only [Option.some.injEq] at hout
    subst hout
    omega
  · intro output hc hN hneg
    exact read_out_of_bounds h w d client output hc (by omega) (by omega)
      (sliceIndex_neg _ _ hneg)

/-- Witness of C10: two records read with index -1, every write accepted. -/
theorem read_ok_iff_witness :
    dataSourceAwsEc2TransitGatewayRouteTableRead sampleHelpers acceptAll (sampleData (some (-1)))
        sampleClient = (Outcome.panic, sampleData (some (-1))) :=
  (read_ok_iff sampleHelpers acceptAll (sampleData (some (-1))) sampleClient
    (fun _ _ => rfl)).2.2.2
    { TransitGatewayRouteTables := [some sampleTable1, some sampleTable2] } rfl
    (by decide) (by decide)

end Aws
